import Mathlib

/-!
Verification development for the face-tracking and greeting core of the
face-rec application (src/main.py).

The embedding below translates the tracking and greeting-dispatch core of
`src/main.py` into Lean:

* `TrackedFace` embeds the Python class `TrackedFace` (lines 98-135);
* `update_tracked_faces` embeds `FaceDetectionApp.update_tracked_faces`
  (lines 452-485);
* `speak`, `stepFace` and `process_frame` embed `FaceDetectionApp.speak`
  (lines 386-450) and the per-face greeting decision of
  `FaceDetectionApp.process_frame` (lines 518-625);
* `dayRollover` embeds the day-change branch of `FaceDetectionApp.run`
  (lines 634-644), and `initApp` / `save_face_counts` embed the ledger
  load/save logic (lines 184-191 and 262-276).

Modelling conventions:
* Python ints are `Int`/`Nat`; Python `//` is `Int.fdiv` (floor division).
* Wall-clock timestamps (`time.time()` floats) are modelled as exact
  rationals `ℚ`; float arithmetic is modelled exactly.
* The float expression `distance < threshold` of `TrackedFace.distance_to`
  (which contains `math.sqrt`) is embedded by the integer predicate
  `TrackedFace.distance_lt`, obtained by clearing denominators and squaring;
  its equivalence with the literal real-valued formula `distance_to` is
  proved (`distance_lt_iff`) whenever `max` of the two areas is positive,
  which is the exact domain on which the Python expression does not raise
  `ZeroDivisionError`.
* The pygame audio resource is modelled through its interface: a busy flag
  that is an input of each frame; a successful `play` leaves the clip
  audible, so the flag stays set for the remainder of the frame.
* The per-day statistics map (a `defaultdict` keyed by the id string
  `face_n`, which is in bijection with `n`) is modelled as an association
  list `List (Nat × Nat)` with `defaultdict`-style increment `bump`.
-/

namespace FaceRec

/-- A raw per-frame detection: an axis-aligned bounding box, as produced by
`detectMultiScale` and consumed by `update_tracked_faces` (a `(x, y, w, h)`
tuple in the Python source). -/
structure Rect where
  x : Int
  y : Int
  w : Int
  h : Int
deriving DecidableEq

/-- Embedding of the Python class `TrackedFace` (src/main.py lines 98-118).
`centerX`/`centerY` are stored fields, set by `update_position` exactly as in
the source (`x + w // 2`, `y + h // 2`). -/
structure TrackedFace where
  id : Nat
  x : Int
  y : Int
  w : Int
  h : Int
  centerX : Int
  centerY : Int
  frames_missing : Nat
  last_greeting_time : ℚ
  encounter_count : Nat
deriving DecidableEq

/-- Embedding of `TrackedFace.update_position` (lines 110-118): overwrite the
box, recompute the center with Python floor division, reset
`frames_missing` to 0.  All other fields are untouched. -/
def TrackedFace.update_position (f : TrackedFace) (x y w h : Int) : TrackedFace :=
  { f with
    x := x, y := y, w := w, h := h,
    centerX := x + Int.fdiv w 2, centerY := y + Int.fdiv h 2,
    frames_missing := 0 }

/-- Embedding of `TrackedFace.__init__` (lines 102-108): a fresh face takes
the next id, its position from the detection, and zeroed counters. -/
def mkFace (nid : Nat) (x y w h : Int) : TrackedFace :=
  { id := nid,
    x := x, y := y, w := w, h := h,
    centerX := x + Int.fdiv w 2, centerY := y + Int.fdiv h 2,
    frames_missing := 0,
    last_greeting_time := 0,
    encounter_count := 0 }

/-- `self.same_face_threshold = 100` (line 157). -/
def same_face_threshold : Int := 100

/-- `self.max_missing_frames = 10` (line 156). -/
def max_missing_frames : Nat := 10

/-- `self.greeting_cooldown = 10` seconds (line 161). -/
def greeting_cooldown : ℚ := 10

/-- `self.global_greeting_cooldown = 3` seconds (line 165). -/
def global_greeting_cooldown : ℚ := 3

/-- Literal transliteration of `TrackedFace.distance_to` (lines 120-135) into
the reals: Euclidean distance between the stored center and the detection's
center, plus `100` times the relative area difference
`|a₁ - a₂| / max a₁ a₂`. -/
noncomputable def TrackedFace.distance_to (f : TrackedFace) (x y w h : Int) : ℝ :=
  Real.sqrt (((f.centerX - (x + Int.fdiv w 2)) ^ 2 + (f.centerY - (y + Int.fdiv h 2)) ^ 2 : Int) : ℝ)
    + (|((f.w * f.h : Int) : ℝ) - ((w * h : Int) : ℝ)|
        / max ((f.w * f.h : Int) : ℝ) ((w * h : Int) : ℝ)) * 100

/-- Decidable embedding of the comparison
`face.distance_to(x, y, w, h) < self.same_face_threshold` (line 469),
with the division by `max` of the areas cleared and the square root removed
by squaring.  `distance_lt_iff` proves it equivalent to the real-valued
formula whenever the divisor is positive. -/
def TrackedFace.distance_lt (f : TrackedFace) (x y w h : Int) : Bool :=
  let d2 : Int := (f.centerX - (x + Int.fdiv w 2)) ^ 2 + (f.centerY - (y + Int.fdiv h 2)) ^ 2
  let m : Int := max (f.w * f.h) (w * h)
  let r : Int := same_face_threshold * m - 100 * |f.w * f.h - w * h|
  decide (0 < r ∧ d2 * m ^ 2 < r ^ 2)

/-- The inner matching loop of `update_tracked_faces` (lines 466-474): scan
the current face list in order and update (only) the first face whose
matching cost is below the threshold; `none` when no face matches.  The
source collects `matched_indices` but never reads it, so already-updated
faces are scanned again by later detections of the same frame. -/
def matchDetection : List TrackedFace → Int → Int → Int → Int → Option (List TrackedFace)
  | [], _, _, _, _ => none
  | f :: fs, x, y, w, h =>
    if f.distance_lt x y w h then
      some (f.update_position x y w h :: fs)
    else
      (matchDetection fs x y w h).map (fun fs1 => f :: fs1)

/-- The tracker's mutable state: `self.tracked_faces` together with the class
counter `TrackedFace.next_id`. -/
structure TrackerState where
  faces : List TrackedFace
  next_id : Nat
deriving DecidableEq

/-- The body of the outer detection loop of `update_tracked_faces`
(lines 462-482): match the detection against the current list, or append a
brand-new face (consuming one id) when nothing matches. -/
def processDetection (s : TrackerState) (d : Rect) : TrackerState :=
  match matchDetection s.faces d.x d.y d.w d.h with
  | some fs => { s with faces := fs }
  | none =>
    { faces := s.faces ++ [mkFace s.next_id d.x d.y d.w d.h],
      next_id := s.next_id + 1 }

/-- Embedding of `FaceDetectionApp.update_tracked_faces` (lines 452-485):
first age every tracked face (`frames_missing += 1`), then process the
detections in order (a match resets `frames_missing` via `update_position`;
a non-match appends a new face that later detections can also match), and
finally drop every face with `frames_missing ≥ max_missing_frames`. -/
def update_tracked_faces (s : TrackerState) (dets : List Rect) : TrackerState :=
  let aged : List TrackedFace :=
    s.faces.map (fun f => { f with frames_missing := f.frames_missing + 1 })
  let s1 := dets.foldl processDetection { s with faces := aged }
  { s1 with faces := s1.faces.filter (fun f => f.frames_missing < max_missing_frames) }

/-- `defaultdict(int)`-style increment of the per-face greeting counter
(`self.face_greeting_counts[face_id] += 1`, line 434): an absent key starts
at 0 before the increment. -/
def bump : List (Nat × Nat) → Nat → List (Nat × Nat)
  | [], k => [(k, 1)]
  | (k1, c) :: rest, k =>
    if k1 = k then (k1, c + 1) :: rest else (k1, c) :: bump rest k

/-- `sum(self.face_greeting_counts.values())` (lines 191 and 437). -/
def sumCounts (l : List (Nat × Nat)) : Nat :=
  (l.map Prod.snd).sum

/-- The scheduler-visible mutable state while one frame's face loop runs:
the global greeting timestamp, the per-face ledger with its derived daily
total, and whether the shared audio output is currently playing. -/
structure Sched where
  last_global_greeting_time : ℚ
  face_greeting_counts : List (Nat × Nat)
  daily_greeting_count : Nat
  busy : Bool
deriving DecidableEq

/-- Embedding of `FaceDetectionApp.speak` (lines 386-450) at the level of the
audio interface: when the mixer is busy the call is a no-op returning
`false`; otherwise playback starts (the flag latches for the rest of the
frame, the clip being audible from now on), the global greeting timestamp is
set, the counter of the face is bumped and the daily total is recomputed
from the per-face map (lines 430-443), and the call returns `true`. -/
def speak (t : ℚ) (fid : Nat) (a : Sched) : Bool × Sched :=
  if a.busy then
    (false, a)
  else
    let counts := bump a.face_greeting_counts fid
    (true,
      { last_global_greeting_time := t,
        face_greeting_counts := counts,
        daily_greeting_count := sumCounts counts,
        busy := true })

/-- The per-face body of the greeting loop of `process_frame`
(lines 553-623): skip faces missing in the current frame; skip when the
per-face cooldown or the (frame-wide, precomputed) global cooldown flag is
active; otherwise, in sequential mode first increment `encounter_count`
(line 587, before the playback attempt), then call `speak` and set the
face's cooldown timestamp only when a greeting was actually played. -/
def stepFace (seq : Bool) (gca : Bool) (t : ℚ) (a : Sched) (f : TrackedFace) :
    Sched × TrackedFace :=
  if f.frames_missing > 0 then
    (a, f)
  else if t - f.last_greeting_time < greeting_cooldown then
    (a, f)
  else if gca then
    (a, f)
  else if seq then
    let f1 := { f with encounter_count := f.encounter_count + 1 }
    match speak t f1.id a with
    | (true, a1) => (a1, { f1 with last_greeting_time := t })
    | (false, a1) => (a1, f1)
  else
    match speak t f.id a with
    | (true, a1) => (a1, { f with last_greeting_time := t })
    | (false, a1) => (a1, f)

/-- The greeting loop over `self.tracked_faces` (line 553), threading the
scheduler state through `stepFace` face by face, in list order. -/
def greetFaces (seq : Bool) (gca : Bool) (t : ℚ) :
    Sched → List TrackedFace → Sched × List TrackedFace
  | a, [] => (a, [])
  | a, f :: fs =>
    let p := stepFace seq gca t a f
    let q := greetFaces seq gca t p.1 fs
    (q.1, p.2 :: q.2)

/-- The whole application state relevant to the claims: the tracker plus the
greeting/ledger state of `FaceDetectionApp`. -/
structure AppState where
  tracker : TrackerState
  last_global_greeting_time : ℚ
  face_greeting_counts : List (Nat × Nat)
  daily_greeting_count : Nat
deriving DecidableEq

/-- The frame-wide global-cooldown flag, computed once per frame before the
face loop from the pre-frame timestamp (lines 539-542):
`(current_time - self.last_global_greeting_time) < self.global_greeting_cooldown`. -/
def global_cooldown_active (s : AppState) (t : ℚ) : Bool :=
  decide (t - s.last_global_greeting_time < global_greeting_cooldown)

/-- Embedding of `FaceDetectionApp.process_frame` (lines 518-625).  The
detections, the frame's wall-clock time `t` and the audio-busy state at the
start of the frame are the frame's external inputs.  With zero detections
the method returns before touching any state (lines 531-533); otherwise it
runs `update_tracked_faces`, computes the global-cooldown flag once, and
runs the greeting loop over the updated face list. -/
def process_frame (seq : Bool) (s : AppState) (dets : List Rect) (t : ℚ)
    (busy0 : Bool) : AppState :=
  if dets.isEmpty then
    s
  else
    let tr := update_tracked_faces s.tracker dets
    let gca := global_cooldown_active s t
    let a0 : Sched :=
      { last_global_greeting_time := s.last_global_greeting_time,
        face_greeting_counts := s.face_greeting_counts,
        daily_greeting_count := s.daily_greeting_count,
        busy := busy0 }
    let r := greetFaces seq gca t a0 tr.faces
    { tracker := { faces := r.2, next_id := tr.next_id },
      last_global_greeting_time := r.1.last_global_greeting_time,
      face_greeting_counts := r.1.face_greeting_counts,
      daily_greeting_count := r.1.daily_greeting_count }

/-- A run of consecutive frames: each frame carries its detections, its
wall-clock time and the audio-busy state at its start. -/
def runFrames (seq : Bool) : AppState → List (List Rect × ℚ × Bool) → AppState
  | s, [] => s
  | s, fr :: rest => runFrames seq (process_frame seq s fr.1 fr.2.1 fr.2.2) rest

/-- Embedding of the day-rollover branch of `FaceDetectionApp.run`
(lines 634-644): per-face counts and the daily total are cleared, the
`TrackedFace` id counter is reset to 1 and the tracked face list is cleared.
The global greeting timestamp is not touched by this branch. -/
def dayRollover (s : AppState) : AppState :=
  { tracker := { faces := [], next_id := 1 },
    last_global_greeting_time := s.last_global_greeting_time,
    face_greeting_counts := [],
    daily_greeting_count := 0 }

/-- Embedding of the ledger initialization in `FaceDetectionApp.__init__`
(lines 155, 164, 188-191 together with `TrackedFace.next_id = 1`): the
per-face counts are whatever `load_face_counts` read from disk, and the
daily total is recomputed as their sum. -/
def initApp (loaded : List (Nat × Nat)) : AppState :=
  { tracker := { faces := [], next_id := 1 },
    last_global_greeting_time := 0,
    face_greeting_counts := loaded,
    daily_greeting_count := sumCounts loaded }

/-- The record persisted by `FaceDetectionApp.save_face_counts`
(lines 262-276): the pair `(greeting_count, face_counts)` written to the
per-day stats file. -/
def save_face_counts (s : AppState) : Nat × List (Nat × Nat) :=
  (s.daily_greeting_count, s.face_greeting_counts)

/-- The ledger invariant of the spec: the daily total equals the sum of the
per-face counts. -/
def ledgerInv (s : AppState) : Prop :=
  s.daily_greeting_count = sumCounts s.face_greeting_counts

/-- One tracker update with an empty detection list. -/
def emptyUpd (s : TrackerState) : TrackerState :=
  update_tracked_faces s []

/-- Well-formedness of id assignment: tracked ids are pairwise distinct and
all below the next free id. -/
def idsOk (s : TrackerState) : Prop :=
  (s.faces.map TrackedFace.id).Nodup ∧ ∀ f ∈ s.faces, f.id < s.next_id

/-- A concrete freshly created face used by concrete counterexamples and
witnesses: id 1, box (0, 0, 50, 50). -/
def exFace : TrackedFace :=
  mkFace 1 0 0 50 50

/-- A second concrete face, far from `exFace`: id 2, box (500, 0, 50, 50). -/
def exFaceB : TrackedFace :=
  mkFace 2 500 0 50 50

/-- A concrete scheduler state whose audio output is currently busy. -/
def aBusy : Sched :=
  { last_global_greeting_time := 0, face_greeting_counts := [],
    daily_greeting_count := 0, busy := true }

/-- A concrete scheduler state whose audio output is free. -/
def aFree : Sched :=
  { last_global_greeting_time := 0, face_greeting_counts := [],
    daily_greeting_count := 0, busy := false }

/-- A concrete application state tracking `exFace` and `exFaceB`, with no
greeting ever fired. -/
def sAB : AppState :=
  { tracker := { faces := [exFace, exFaceB], next_id := 3 },
    last_global_greeting_time := 0,
    face_greeting_counts := [],
    daily_greeting_count := 0 }

/-- A concrete detection box, identical to `exFace`'s box. -/
def exDet : Rect :=
  ⟨0, 0, 50, 50⟩

/-- A concrete application state as it stands just before a day rollover:
one tracked face (id 1, greeted twice), `next_id` already advanced to 2. -/
def preRollover : AppState :=
  { tracker := { faces := [exFace], next_id := 2 },
    last_global_greeting_time := 5,
    face_greeting_counts := [(1, 2)],
    daily_greeting_count := 2 }

/-- A concrete application state whose last greeting fired at time 7. -/
def sGate : AppState :=
  { tracker := { faces := [exFace], next_id := 2 },
    last_global_greeting_time := 7,
    face_greeting_counts := [(1, 1)],
    daily_greeting_count := 1 }

/-! ## Helper lemmas -/

/-- A tracker update with one tracked face and no detections: the face ages
by one frame and survives exactly when the aged count is still below the
staleness threshold. -/
lemma emptyUpd_single (f : TrackedFace) (nid : Nat) :
    emptyUpd { faces := [f], next_id := nid } =
      if f.frames_missing + 1 < max_missing_frames then
        { faces := [{ f with frames_missing := f.frames_missing + 1 }], next_id := nid }
      else
        { faces := [], next_id := nid } := by
  by_cases h : f.frames_missing + 1 < max_missing_frames <;>
    simp [emptyUpd, update_tracked_faces, h]

/-- Iterating detector-empty updates on a single fresh face: after `n < 10`
of them the face is present with `frames_missing = n`. -/
lemma emptyUpd_iter (f : TrackedFace) (nid : Nat) (h0 : f.frames_missing = 0) :
    ∀ n, n < max_missing_frames →
      emptyUpd^[n] { faces := [f], next_id := nid } =
        { faces := [{ f with frames_missing := n }], next_id := nid } := by
  intro n
  induction n with
  | zero =>
    intro _
    have hf : { f with frames_missing := 0 } = f := by
      cases f
      simp_all
    simp [hf]
  | succ n ih =>
    intro hn
    have hn9 : n < max_missing_frames := Nat.lt_of_succ_lt hn
    rw [Function.iterate_succ_apply', ih hn9, emptyUpd_single]
    simp only [max_missing_frames] at hn ⊢
    simp [hn]

/-- The inner matching loop updates at most one face: a successful
`matchDetection` replaces exactly one entry of the list (the matched one) by
its repositioned version and leaves every other entry untouched. -/
lemma matchDetection_some_set :
    ∀ (faces : List TrackedFace) (x y w h : Int) (fs : List TrackedFace),
      matchDetection faces x y w h = some fs →
      ∃ i, ∃ hi : i < faces.length,
        fs = faces.set i ((faces.get ⟨i, hi⟩).update_position x y w h) := by
  intro faces
  induction faces with
  | nil =>
    intro x y w h fs hfs
    simp [matchDetection] at hfs
  | cons f rest ih =>
    intro x y w h fs hfs
    by_cases hd : f.distance_lt x y w h
    · simp only [matchDetection, hd, if_pos, Option.some.injEq] at hfs
      exact ⟨0, Nat.succ_pos _, by simp [← hfs]⟩
    · have hstep : matchDetection (f :: rest) x y w h =
          (matchDetection rest x y w h).map (fun fs1 => f :: fs1) := by
        simp [matchDetection, hd]
      rw [hstep, Option.map_eq_some'] at hfs
      obtain ⟨fs1, h1, h2⟩ := hfs
      obtain ⟨i, hi, hset⟩ := ih x y w h fs1 h1
      exact ⟨i + 1, Nat.succ_lt_succ hi, by simp [← h2, hset]⟩

/-- If no tracked face is within the matching threshold, the inner loop
matches nothing. -/
lemma matchDetection_none :
    ∀ (faces : List TrackedFace) (x y w h : Int),
      (∀ f ∈ faces, f.distance_lt x y w h = false) →
      matchDetection faces x y w h = none := by
  intro faces
  induction faces with
  | nil => intro x y w h _; rfl
  | cons f rest ih =>
    intro x y w h hall
    have h0 : f.distance_lt x y w h = false := hall f (List.mem_cons_self f rest)
    have hr : matchDetection rest x y w h = none :=
      ih x y w h fun g hg => hall g (List.mem_cons_of_mem f hg)
    simp [matchDetection, h0, hr]

/-- The inner loop matches exactly the first face (in list order) whose cost
is below the threshold. -/
lemma matchDetection_first :
    ∀ (faces : List TrackedFace) (x y w h : Int) (i : Nat) (hi : i < faces.length),
      (faces.get ⟨i, hi⟩).distance_lt x y w h = true →
      (∀ j (hj : j < i), (faces.get ⟨j, hj.trans hi⟩).distance_lt x y w h = false) →
      matchDetection faces x y w h =
        some (faces.set i ((faces.get ⟨i, hi⟩).update_position x y w h)) := by
  intro faces
  induction faces with
  | nil =>
    intro x y w h i hi
    exact absurd hi (Nat.not_lt_zero i)
  | cons f rest ih =>
    intro x y w h i hi hmatch hfirst
    cases i with
    | zero =>
      simp only [List.get] at hmatch
      simp [matchDetection, hmatch]
    | succ i =>
      have h0 : f.distance_lt x y w h = false := hfirst 0 (Nat.succ_pos i)
      have hi' : i < rest.length := Nat.lt_of_succ_lt_succ hi
      have hm' : (rest.get ⟨i, hi'⟩).distance_lt x y w h = true := hmatch
      have hf' : ∀ j (hj : j < i),
          (rest.get ⟨j, hj.trans hi'⟩).distance_lt x y w h = false :=
        fun j hj => hfirst (j + 1) (Nat.succ_lt_succ hj)
      simp [matchDetection, h0, ih x y w h i hi' hm' hf']

/-- A successful match permutes no ids: the id sequence of the face list is
unchanged (only the matched face's position fields are rewritten). -/
lemma matchDetection_ids :
    ∀ (faces : List TrackedFace) (x y w h : Int) (fs : List TrackedFace),
      matchDetection faces x y w h = some fs →
      fs.map TrackedFace.id = faces.map TrackedFace.id := by
  intro faces
  induction faces with
  | nil =>
    intro x y w h fs hfs
    simp [matchDetection] at hfs
  | cons f rest ih =>
    intro x y w h fs hfs
    by_cases hd : f.distance_lt x y w h
    · simp only [matchDetection, hd, if_pos, Option.some.injEq] at hfs
      simp [← hfs, TrackedFace.update_position]
    · have hstep : matchDetection (f :: rest) x y w h =
          (matchDetection rest x y w h).map (fun fs1 => f :: fs1) := by
        simp [matchDetection, hd]
      rw [hstep, Option.map_eq_some'] at hfs
      obtain ⟨fs1, h1, h2⟩ := hfs
      simp [← h2, ih x y w h fs1 h1]

/-- When audio is already playing, one `stepFace` leaves the scheduler state
(global timestamp, ledger, busy flag) untouched. -/
lemma stepFace_busy (seq gca : Bool) (t : ℚ) (a : Sched) (f : TrackedFace)
    (hb : a.busy = true) :
    (stepFace seq gca t a f).1 = a := by
  unfold stepFace
  split_ifs <;> simp [speak, hb]

/-- One `stepFace` either leaves the scheduler state untouched, or (only
when audio was free) performs exactly one successful greeting: the global
timestamp becomes `t`, one key of the ledger is bumped, the daily total is
recomputed from the bumped ledger and the busy flag latches. -/
lemma stepFace_sched_cases (seq gca : Bool) (t : ℚ) (a : Sched) (f : TrackedFace) :
    (stepFace seq gca t a f).1 = a ∨
    (a.busy = false ∧ ∃ k,
      (stepFace seq gca t a f).1 =
        { last_global_greeting_time := t,
          face_greeting_counts := bump a.face_greeting_counts k,
          daily_greeting_count := sumCounts (bump a.face_greeting_counts k),
          busy := true }) := by
  unfold stepFace
  split_ifs
  · exact Or.inl rfl
  · exact Or.inl rfl
  · exact Or.inl rfl
  · by_cases hb : a.busy
    · exact Or.inl (by simp [speak, hb])
    · have hb' : a.busy = false := by simp at hb; exact hb
      exact Or.inr ⟨hb', f.id, by simp [speak, hb']⟩
  · by_cases hb : a.busy
    · exact Or.inl (by simp [speak, hb])
    · have hb' : a.busy = false := by simp at hb; exact hb
      exact Or.inr ⟨hb', f.id, by simp [speak, hb']⟩

/-- With the frame-wide global-cooldown flag set, `stepFace` is a no-op on
both the scheduler state and the face. -/
lemma stepFace_gca (seq : Bool) (t : ℚ) (a : Sched) (f : TrackedFace) :
    stepFace seq true t a f = (a, f) := by
  simp [stepFace]

/-- Unfolding of the greeting loop on a nonempty face list. -/
lemma greetFaces_cons (seq gca : Bool) (t : ℚ) (a : Sched) (f : TrackedFace)
    (fs : List TrackedFace) :
    greetFaces seq gca t a (f :: fs) =
      ((greetFaces seq gca t (stepFace seq gca t a f).1 fs).1,
        (stepFace seq gca t a f).2 ::
          (greetFaces seq gca t (stepFace seq gca t a f).1 fs).2) := by
  simp [greetFaces]

/-- When audio is busy at the start of the loop, the whole greeting loop
leaves the scheduler state untouched. -/
lemma greetFaces_busy (seq gca : Bool) (t : ℚ) :
    ∀ (fs : List TrackedFace) (a : Sched), a.busy = true →
      (greetFaces seq gca t a fs).1 = a := by
  intro fs
  induction fs with
  | nil => intro a _; rfl
  | cons f fs ih =>
    intro a hb
    rw [greetFaces_cons]
    simp only
    rw [stepFace_busy seq gca t a f hb]
    exact ih a hb

/-- The whole greeting loop either leaves the scheduler state untouched, or
(only when audio was free at frame start) fires exactly one greeting: the
global timestamp becomes `t`, exactly one ledger key is bumped and the daily
total is recomputed from the bumped ledger. -/
lemma greetFaces_sched_cases (seq gca : Bool) (t : ℚ) :
    ∀ (fs : List TrackedFace) (a : Sched),
      (greetFaces seq gca t a fs).1 = a ∨
      (a.busy = false ∧ ∃ k,
        (greetFaces seq gca t a fs).1 =
          { last_global_greeting_time := t,
            face_greeting_counts := bump a.face_greeting_counts k,
            daily_greeting_count := sumCounts (bump a.face_greeting_counts k),
            busy := true }) := by
  intro fs
  induction fs with
  | nil => intro a; exact Or.inl rfl
  | cons f fs ih =>
    intro a
    rcases stepFace_sched_cases seq gca t a f with hp | ⟨hb, k, hp⟩
    · rw [greetFaces_cons]
      simp only
      rw [hp]
      exact ih a
    · right
      refine ⟨hb, k, ?_⟩
      rw [greetFaces_cons]
      simp only
      rw [hp]
      exact greetFaces_busy seq gca t fs _ rfl

/-- With the global-cooldown flag set for the frame, the greeting loop is
the identity on both the scheduler state and the face list. -/
lemma greetFaces_gca (seq : Bool) (t : ℚ) :
    ∀ (fs : List TrackedFace) (a : Sched),
      greetFaces seq true t a fs = (a, fs) := by
  intro fs
  induction fs with
  | nil => intro a; rfl
  | cons f fs ih =>
    intro a
    rw [greetFaces_cons, stepFace_gca]
    simp [ih a]

/-- A `defaultdict` increment adds exactly one to the sum of the counts. -/
lemma bump_sum : ∀ (l : List (Nat × Nat)) (k : Nat),
    sumCounts (bump l k) = sumCounts l + 1 := by
  intro l k
  induction l with
  | nil => simp [bump, sumCounts]
  | cons p rest ih =>
    by_cases h : p.1 = k
    · cases p
      simp_all [bump, sumCounts]
      omega
    · cases p
      simp_all [bump, sumCounts]
      omega

/-- Zero detections: `process_frame` returns before touching any state. -/
lemma process_frame_nil (seq : Bool) (s : AppState) (t : ℚ) (b : Bool) :
    process_frame seq s [] t b = s := rfl

/-- A frame whose global-cooldown flag is set fires no greeting: the ledger,
the daily total and the global timestamp come out unchanged. -/
lemma process_frame_gate (seq : Bool) (s : AppState) (dets : List Rect) (t : ℚ)
    (b : Bool) (hg : global_cooldown_active s t = true) :
    (process_frame seq s dets t b).face_greeting_counts = s.face_greeting_counts ∧
    (process_frame seq s dets t b).last_global_greeting_time = s.last_global_greeting_time ∧
    (process_frame seq s dets t b).daily_greeting_count = s.daily_greeting_count := by
  rcases dets with _ | ⟨d, ds⟩
  · simp [process_frame_nil]
  · unfold process_frame
    simp only [List.isEmpty_cons, Bool.false_eq_true, if_false]
    rw [hg, greetFaces_gca]
    exact ⟨rfl, rfl, rfl⟩

/-- Any single frame either fires no greeting (ledger, daily total and
global timestamp unchanged) or fires exactly one: the global timestamp
becomes the frame time, exactly one ledger key is bumped, and the daily
total is recomputed from the bumped ledger. -/
lemma process_frame_sched_cases (seq : Bool) (s : AppState) (dets : List Rect)
    (t : ℚ) (b : Bool) :
    ((process_frame seq s dets t b).face_greeting_counts = s.face_greeting_counts ∧
     (process_frame seq s dets t b).last_global_greeting_time = s.last_global_greeting_time ∧
     (process_frame seq s dets t b).daily_greeting_count = s.daily_greeting_count) ∨
    (∃ k,
      (process_frame seq s dets t b).last_global_greeting_time = t ∧
      (process_frame seq s dets t b).face_greeting_counts = bump s.face_greeting_counts k ∧
      (process_frame seq s dets t b).daily_greeting_count
        = sumCounts (bump s.face_greeting_counts k)) := by
  rcases dets with _ | ⟨d, ds⟩
  · left
    simp [process_frame_nil]
  · unfold process_frame
    simp only [List.isEmpty_cons, Bool.false_eq_true, if_false]
    rcases greetFaces_sched_cases seq (global_cooldown_active s t) t
        (update_tracked_faces s.tracker (d :: ds)).faces
        { last_global_greeting_time := s.last_global_greeting_time,
          face_greeting_counts := s.face_greeting_counts,
          daily_greeting_count := s.daily_greeting_count, busy := b } with hcase | hcase
    · left
      rw [hcase]
      exact ⟨rfl, rfl, rfl⟩
    · right
      obtain ⟨_, k, hcase⟩ := hcase
      refine ⟨k, ?_⟩
      rw [hcase]
      exact ⟨rfl, rfl, rfl⟩

/-- After a greeting at time `t0`, a frame at a time less than
`t0 + global_greeting_cooldown` has its global-cooldown flag set. -/
lemma gate_active_of_recent (s : AppState) (t0 t : ℚ)
    (h0 : s.last_global_greeting_time = t0)
    (ht : t - t0 < global_greeting_cooldown) :
    global_cooldown_active s t = true := by
  simp [global_cooldown_active, h0, ht]

/-- One `processDetection` step preserves well-formed id assignment and
never decreases the id counter. -/
lemma processDetection_ids (s : TrackerState) (d : Rect) (hok : idsOk s) :
    idsOk (processDetection s d) ∧ s.next_id ≤ (processDetection s d).next_id := by
  unfold processDetection
  cases hm : matchDetection s.faces d.x d.y d.w d.h with
  | some fs =>
    have hids := matchDetection_ids s.faces d.x d.y d.w d.h fs hm
    refine ⟨⟨?_, ?_⟩, le_refl _⟩
    · show (fs.map TrackedFace.id).Nodup
      rw [hids]
      exact hok.1
    · intro f hf
      have hmem : f.id ∈ fs.map TrackedFace.id := List.mem_map_of_mem _ hf
      rw [hids] at hmem
      obtain ⟨g, hg, hgid⟩ := List.mem_map.mp hmem
      exact hgid ▸ hok.2 g hg
  | none =>
    refine ⟨⟨?_, ?_⟩, Nat.le_succ _⟩
    · show ((s.faces ++ [mkFace s.next_id d.x d.y d.w d.h]).map TrackedFace.id).Nodup
      rw [List.map_append]
      rw [List.nodup_append]
      refine ⟨hok.1, by simp, ?_⟩
      intro i hi hi1
      simp only [List.map_cons, List.map_nil, List.mem_singleton, mkFace] at hi1
      obtain ⟨g, hg, hgid⟩ := List.mem_map.mp hi
      have := hok.2 g hg
      omega
    · intro f hf
      rcases List.mem_append.mp hf with hf1 | hf1
      · exact Nat.lt_succ_of_lt (hok.2 f hf1)
      · simp only [List.mem_singleton] at hf1
        subst hf1
        exact Nat.lt_succ_self _

/-- Folding `processDetection` over any detection list preserves well-formed
id assignment and never decreases the id counter. -/
lemma foldl_processDetection_ids :
    ∀ (dets : List Rect) (s : TrackerState), idsOk s →
      idsOk (dets.foldl processDetection s) ∧
      s.next_id ≤ (dets.foldl processDetection s).next_id := by
  intro dets
  induction dets with
  | nil => intro s hok; exact ⟨hok, le_refl _⟩
  | cons d ds ih =>
    intro s hok
    have hstep := processDetection_ids s d hok
    have hrest := ih (processDetection s d) hstep.1
    exact ⟨hrest.1, le_trans hstep.2 hrest.2⟩

/-- A full tracker update preserves well-formed id assignment and never
decreases the id counter. -/
lemma update_tracked_faces_ids (s : TrackerState) (dets : List Rect) (hok : idsOk s) :
    idsOk (update_tracked_faces s dets) ∧
    s.next_id ≤ (update_tracked_faces s dets).next_id := by
  have hcomp : TrackedFace.id ∘
      (fun f : TrackedFace => { f with frames_missing := f.frames_missing + 1 })
      = TrackedFace.id := rfl
  have haged : idsOk
      (TrackerState.mk
        (s.faces.map (fun f => { f with frames_missing := f.frames_missing + 1 }))
        s.next_id) := by
    constructor
    · show ((s.faces.map (fun f =>
        { f with frames_missing := f.frames_missing + 1 })).map TrackedFace.id).Nodup
      rw [List.map_map, hcomp]
      exact hok.1
    · intro f hf
      obtain ⟨g, hg, rfl⟩ := List.mem_map.mp hf
      exact hok.2 g hg
  obtain ⟨h1, h2⟩ := foldl_processDetection_ids dets _ haged
  have hexp : update_tracked_faces s dets =
      TrackerState.mk
        ((dets.foldl processDetection
          (TrackerState.mk
            (s.faces.map (fun f => { f with frames_missing := f.frames_missing + 1 }))
            s.next_id)).faces.filter (fun f => f.frames_missing < max_missing_frames))
        ((dets.foldl processDetection
          (TrackerState.mk
            (s.faces.map (fun f => { f with frames_missing := f.frames_missing + 1 }))
            s.next_id)).next_id) := rfl
  rw [hexp]
  refine ⟨⟨?_, ?_⟩, ?_⟩
  · exact List.Nodup.sublist (List.Sublist.map _ (List.filter_sublist _)) h1.1
  · intro f hf
    exact h1.2 f (List.mem_of_mem_filter hf)
  · exact h2

/-- The integer predicate `distance_lt` agrees with the source's real-valued
cost comparison `distance_to(...) < same_face_threshold` whenever the larger
of the two box areas is positive (which is exactly when the source's
division does not raise `ZeroDivisionError`). -/
lemma distance_lt_iff (f : TrackedFace) (x y w h : Int)
    (hm : 0 < max (f.w * f.h) (w * h)) :
    (f.distance_lt x y w h = true ↔
      f.distance_to x y w h < ((same_face_threshold : Int) : ℝ)) := by
  unfold TrackedFace.distance_lt TrackedFace.distance_to same_face_threshold
  simp only [decide_eq_true_eq]
  set d2 : Int := (f.centerX - (x + Int.fdiv w 2)) ^ 2 + (f.centerY - (y + Int.fdiv h 2)) ^ 2 with hd2def
  set a1 : Int := f.w * f.h with ha1
  set a2 : Int := w * h with ha2
  have hmax : ((max a1 a2 : Int) : ℝ) = max ((a1 : Int) : ℝ) ((a2 : Int) : ℝ) := by
    push_cast
    rfl
  have habs : ((|a1 - a2| : Int) : ℝ) = |((a1 : Int) : ℝ) - ((a2 : Int) : ℝ)| := by
    push_cast
    rfl
  rw [← hmax, ← habs]
  have hMpos : (0 : ℝ) < ((max a1 a2 : Int) : ℝ) := by exact_mod_cast hm
  have hMne : ((max a1 a2 : Int) : ℝ) ≠ 0 := ne_of_gt hMpos
  have h100 : ((100 : Int) : ℝ) = (100 : ℝ) := by norm_num
  rw [h100]
  have hd2nn : (0 : Int) ≤ d2 := by positivity
  have hDnn : (0 : ℝ) ≤ ((d2 : Int) : ℝ) := by exact_mod_cast hd2nn
  have hexpand : (Real.sqrt ((d2 : Int) : ℝ)
        + ((|a1 - a2| : Int) : ℝ) / ((max a1 a2 : Int) : ℝ) * 100) * ((max a1 a2 : Int) : ℝ)
      = Real.sqrt ((d2 : Int) : ℝ) * ((max a1 a2 : Int) : ℝ) + 100 * ((|a1 - a2| : Int) : ℝ) := by
    have hcancel : ∀ (A M : ℝ), M ≠ 0 → A / M * 100 * M = 100 * A := by
      intro A M hM
      field_simp
      ring
    rw [add_mul, hcancel _ _ hMne]
  have hsqrtmul : Real.sqrt (((d2 : Int) : ℝ) * ((max a1 a2 : Int) : ℝ) ^ 2)
      = Real.sqrt ((d2 : Int) : ℝ) * ((max a1 a2 : Int) : ℝ) := by
    rw [Real.sqrt_mul hDnn, Real.sqrt_sq hMpos.le]
  have hE : ((100 * max a1 a2 - 100 * |a1 - a2| : Int) : ℝ)
      = 100 * ((max a1 a2 : Int) : ℝ) - 100 * ((|a1 - a2| : Int) : ℝ) := by
    push_cast
    ring
  constructor
  · rintro ⟨hR, hlt⟩
    have hRr : (0 : ℝ) < ((100 * max a1 a2 - 100 * |a1 - a2| : Int) : ℝ) := by exact_mod_cast hR
    have hltr : ((d2 : Int) : ℝ) * ((max a1 a2 : Int) : ℝ) ^ 2
        < ((100 * max a1 a2 - 100 * |a1 - a2| : Int) : ℝ) ^ 2 := by exact_mod_cast hlt
    have h1 := (Real.sqrt_lt' hRr).mpr hltr
    rw [hsqrtmul, hE] at h1
    rw [← mul_lt_mul_right hMpos, hexpand]
    calc Real.sqrt ((d2 : Int) : ℝ) * ((max a1 a2 : Int) : ℝ) + 100 * ((|a1 - a2| : Int) : ℝ)
        < (100 * ((max a1 a2 : Int) : ℝ) - 100 * ((|a1 - a2| : Int) : ℝ))
            + 100 * ((|a1 - a2| : Int) : ℝ) := by linarith
      _ = 100 * ((max a1 a2 : Int) : ℝ) := by ring
  · intro hlt
    rw [← mul_lt_mul_right hMpos, hexpand] at hlt
    have hkey : Real.sqrt ((d2 : Int) : ℝ) * ((max a1 a2 : Int) : ℝ)
        < 100 * ((max a1 a2 : Int) : ℝ) - 100 * ((|a1 - a2| : Int) : ℝ) := by linarith
    have hsnn : (0 : ℝ) ≤ Real.sqrt ((d2 : Int) : ℝ) * ((max a1 a2 : Int) : ℝ) :=
      mul_nonneg (Real.sqrt_nonneg _) hMpos.le
    have hRr : (0 : ℝ) < 100 * ((max a1 a2 : Int) : ℝ) - 100 * ((|a1 - a2| : Int) : ℝ) :=
      lt_of_le_of_lt hsnn hkey
    have hRr' : (0 : ℝ) < ((100 * max a1 a2 - 100 * |a1 - a2| : Int) : ℝ) := by
      rw [hE]
      exact hRr
    have h2 : Real.sqrt (((d2 : Int) : ℝ) * ((max a1 a2 : Int) : ℝ) ^ 2)
        < ((100 * max a1 a2 - 100 * |a1 - a2| : Int) : ℝ) := by
      rw [hsqrtmul, hE]
      exact hkey
    have h3 := (Real.sqrt_lt' hRr').mp h2
    constructor
    · exact_mod_cast hRr'
    · exact_mod_cast h3


/-! ## Claim theorems -/

/-- C7: the tracker's per-frame update is a total operation (the embedding
is a total function; the only failure mode of the source formula, a
zero-area division, cannot arise with zero detections since no cost is ever
computed), and on a frame with zero detections it yields the identity set
unchanged except for staleness aging: every face's `frames_missing` is
incremented, faces whose aged count reaches `max_missing_frames` are
dropped, and nothing else (ids, boxes, cooldowns, counters, `next_id`)
changes. -/
theorem claim_C7 (s : TrackerState) :
    update_tracked_faces s [] =
      TrackerState.mk
        ((s.faces.map (fun f => { f with frames_missing := f.frames_missing + 1 })).filter
          (fun f => f.frames_missing < max_missing_frames))
        s.next_id := rfl

/-- Witness for C7 at a concrete tracker state. -/
theorem claim_C7_witness :
    update_tracked_faces { faces := [exFace], next_id := 2 } [] =
      TrackerState.mk
        (([exFace].map (fun f => { f with frames_missing := f.frames_missing + 1 })).filter
          (fun f => f.frames_missing < max_missing_frames))
        2 :=
  claim_C7 { faces := [exFace], next_id := 2 }

/-- C10: when the detector reports zero faces, `process_frame` returns
before calling the tracker (src/main.py lines 531-533), so over any run of
consecutive zero-detection frames the whole application state -- in
particular every tracked identity, its `frames_missing` counter and the
membership of the tracked set -- is completely unchanged. -/
theorem claim_C10 (seq : Bool) (s : AppState)
    (frames : List (List Rect × ℚ × Bool))
    (hempty : ∀ fr ∈ frames, fr.1 = ([] : List Rect)) :
    runFrames seq s frames = s := by
  induction frames with
  | nil => rfl
  | cons fr rest ih =>
    have h1 : fr.1 = ([] : List Rect) := hempty fr (List.mem_cons_self _ _)
    have hrest : ∀ g ∈ rest, g.1 = ([] : List Rect) :=
      fun g hg => hempty g (List.mem_cons_of_mem _ hg)
    show runFrames seq (process_frame seq s fr.1 fr.2.1 fr.2.2) rest = s
    rw [h1, process_frame_nil]
    exact ih hrest

/-- Witness for C10: two consecutive zero-detection frames leave a concrete
state untouched. -/
theorem claim_C10_witness :
    runFrames false sGate [([], 8, false), ([], 9, true)] = sGate :=
  claim_C10 false sGate [([], 8, false), ([], 9, true)] (by decide)

/-- C2 counterexample: a fresh identity (`exFace`, `frames_missing = 0`)
subjected to exactly `max_missing_frames = 10` consecutive matchless
updates is REMOVED (the tracked set is empty), while the claim says it
should still be present at exactly 10 and be removed only at 11.  After 9
such updates it is still present.  The removal condition in the source is
`frames_missing < self.max_missing_frames` (line 485), i.e. removal at
count 10, not 11. -/
theorem claim_C2_counterexample :
    (emptyUpd^[10] { faces := [exFace], next_id := 2 }).faces = [] ∧
    (emptyUpd^[9] { faces := [exFace], next_id := 2 }).faces
      = [{ exFace with frames_missing := 9 }] := by decide

/-- C2 amended: an identity with no matching detection survives `n`
consecutive matchless updates for every `n < 10` (with `frames_missing = n`
afterwards), and is removed at exactly `max_missing_frames = 10`
consecutive missed frames -- i.e. removal happens when the missed-frame
count reaches the threshold, one frame earlier than the claim stated. -/
theorem claim_C2_amended (f : TrackedFace) (nid : Nat)
    (h0 : f.frames_missing = 0) (n : Nat) (hn : n < max_missing_frames) :
    (emptyUpd^[n] { faces := [f], next_id := nid }).faces
      = [{ f with frames_missing := n }] ∧
    (emptyUpd^[max_missing_frames] { faces := [f], next_id := nid }).faces = [] := by
  constructor
  · rw [emptyUpd_iter f nid h0 n hn]
  · have h9 : emptyUpd^[9] { faces := [f], next_id := nid }
        = { faces := [{ f with frames_missing := 9 }], next_id := nid } :=
      emptyUpd_iter f nid h0 9 (by norm_num [max_missing_frames])
    have hsplit : emptyUpd^[max_missing_frames] { faces := [f], next_id := nid }
        = emptyUpd (emptyUpd^[9] { faces := [f], next_id := nid }) := by
      rw [show max_missing_frames = 9 + 1 from rfl, Function.iterate_succ_apply']
    rw [hsplit, h9, emptyUpd_single]
    norm_num [max_missing_frames]

/-- Witness for the amended C2 at the concrete face `exFace` and `n = 9`. -/
theorem claim_C2_amended_witness :
    (emptyUpd^[9] { faces := [exFace], next_id := 7 }).faces
      = [{ exFace with frames_missing := 9 }] ∧
    (emptyUpd^[max_missing_frames] { faces := [exFace], next_id := 7 }).faces = [] :=
  claim_C2_amended exFace 7 rfl 9 (by decide)

/-- C1 counterexample: the tracker holds one identity (`exFace`, centered at
(25, 25)); the frame carries two detections, (0,0,50,50) and (2,0,50,50),
BOTH within the matching threshold of that identity.  The first detection
matches it; the claim says the second detection may then neither match it
nor update its position.  In fact the second detection matches the same,
already-matched identity again (the loop at src/main.py lines 466-474 never
excludes already-matched faces; `matched_indices` is collected but never
read) and overwrites its position to x = 2 (center 27); no new identity is
created (`next_id` stays 2 and the face list stays a singleton), so the
assignment is not 1:1. -/
theorem claim_C1_counterexample :
    update_tracked_faces { faces := [exFace], next_id := 2 }
        [⟨0, 0, 50, 50⟩, ⟨2, 0, 50, 50⟩] =
      { faces := [{ exFace with x := 2, centerX := 27 }], next_id := 2 } := by decide

/-- C1 amended: the 1:1 restriction holds in one direction only.  Per
detection, at most one identity is matched and updated: a successful inner
matching pass replaces exactly one entry of the face list (the first one
below the threshold) and leaves every other entry untouched.  Per identity
there is no such restriction: an identity already matched in this frame may
be matched again by a later detection of the same frame (the source never
consults its `matched_indices`), as exhibited by the counterexample. -/
theorem claim_C1_amended (faces : List TrackedFace) (x y w h : Int)
    (fs : List TrackedFace) (hm : matchDetection faces x y w h = some fs) :
    ∃ i, ∃ hi : i < faces.length,
      fs = faces.set i ((faces.get ⟨i, hi⟩).update_position x y w h) :=
  matchDetection_some_set faces x y w h fs hm

/-- Witness for the amended C1 at a concrete match. -/
theorem claim_C1_amended_witness :
    ∃ i, ∃ hi : i < ([exFace] : List TrackedFace).length,
      [exFace.update_position 0 0 50 50] =
        ([exFace] : List TrackedFace).set i
          ((([exFace] : List TrackedFace).get ⟨i, hi⟩).update_position 0 0 50 50) :=
  claim_C1_amended [exFace] 0 0 50 50 [exFace.update_position 0 0 50 50] (by decide)

/-- C6: a detection is assigned to the FIRST identity in the tracker's
iteration order whose matching cost -- Euclidean distance between centers
plus 100 times the relative area difference, as transliterated in
`distance_to` -- is strictly below the threshold 100 (first conjunct: the
decidable matcher used by the embedding agrees with that real-valued cost
comparison whenever the area divisor is positive; second conjunct: the
first below-threshold identity, not the cheapest, is the one updated); and
when no identity is below the threshold, a brand-new identity with the next
fresh id is appended (third conjunct). -/
theorem claim_C6 (s : TrackerState) (x y w h : Int) :
    (∀ f : TrackedFace, 0 < max (f.w * f.h) (w * h) →
      (f.distance_lt x y w h = true ↔
        f.distance_to x y w h < ((same_face_threshold : Int) : ℝ))) ∧
    (∀ i (hi : i < s.faces.length),
      (s.faces.get ⟨i, hi⟩).distance_lt x y w h = true →
      (∀ j (hj : j < i), (s.faces.get ⟨j, hj.trans hi⟩).distance_lt x y w h = false) →
      processDetection s ⟨x, y, w, h⟩ =
        { s with faces := s.faces.set i ((s.faces.get ⟨i, hi⟩).update_position x y w h) }) ∧
    ((∀ f ∈ s.faces, f.distance_lt x y w h = false) →
      processDetection s ⟨x, y, w, h⟩ =
        { faces := s.faces ++ [mkFace s.next_id x y w h], next_id := s.next_id + 1 }) := by
  refine ⟨fun f hf => distance_lt_iff f x y w h hf, ?_, ?_⟩
  · intro i hi hmatch hfirst
    unfold processDetection
    rw [matchDetection_first s.faces x y w h i hi hmatch hfirst]
  · intro hnone
    unfold processDetection
    rw [matchDetection_none s.faces x y w h hnone]

/-- Witness for C6: the first-match branch at a concrete state. -/
theorem claim_C6_witness :
    processDetection { faces := [exFace], next_id := 2 } ⟨0, 0, 50, 50⟩ =
      { faces := [exFace.update_position 0 0 50 50], next_id := 2 } := by
  have h := (claim_C6 { faces := [exFace], next_id := 2 } 0 0 50 50).2.1 0 (by decide)
    (by decide) (fun j hj => absurd hj (Nat.not_lt_zero j))
  simpa using h


/-- C3 counterexample (sequential-greetings mode): an otherwise eligible
identity is attempted while audio is busy; the attempt mutates state: its
`encounter_count` goes from 0 to 1, because `process_frame` increments it
BEFORE calling `speak` (src/main.py line 587) and never rolls it back when
the busy check makes `speak` return `False`.  Everything the claim lists
besides `encounterCount` is indeed unchanged (scheduler state comes back
exactly `aBusy`). -/
theorem claim_C3_counterexample :
    stepFace true false 50 aBusy exFace =
      (aBusy, { exFace with encounter_count := 1 }) ∧
    exFace.encounter_count = 0 := by
  constructor
  · norm_num [stepFace, speak, exFace, aBusy, mkFace, greeting_cooldown]
  · rfl

/-- C3 amended: when playback is already active, a greeting attempt leaves
the scheduler state (per-identity and global timestamps, ledger per-key
counts, daily total) untouched and leaves the identity's cooldown timestamp
untouched, so the identity is retried at the next opportunity; however in
sequential-greetings mode the identity's `encounter_count` is incremented
before the playback attempt and is not rolled back, so it is the one piece
of state a busy skip can mutate (in the other modes the identity is
entirely unchanged). -/
theorem claim_C3_amended (seq gca : Bool) (t : ℚ) (a : Sched) (f : TrackedFace)
    (hb : a.busy = true) :
    (stepFace seq gca t a f).1 = a ∧
    (stepFace seq gca t a f).2.last_greeting_time = f.last_greeting_time ∧
    ((stepFace seq gca t a f).2 = f ∨
      (seq = true ∧
        (stepFace seq gca t a f).2 = { f with encounter_count := f.encounter_count + 1 })) := by
  unfold stepFace
  split_ifs with h1 h2 h3 h4
  · exact ⟨rfl, rfl, Or.inl rfl⟩
  · exact ⟨rfl, rfl, Or.inl rfl⟩
  · exact ⟨rfl, rfl, Or.inl rfl⟩
  · refine ⟨?_, ?_, Or.inr ⟨h4, ?_⟩⟩ <;> simp [speak, hb]
  · refine ⟨?_, ?_, Or.inl ?_⟩ <;> simp [speak, hb]

/-- Witness for the amended C3 at the concrete busy state. -/
theorem claim_C3_amended_witness :
    (stepFace true false 50 aBusy exFace).1 = aBusy ∧
    (stepFace true false 50 aBusy exFace).2.last_greeting_time = exFace.last_greeting_time ∧
    ((stepFace true false 50 aBusy exFace).2 = exFace ∨
      (true = true ∧
        (stepFace true false 50 aBusy exFace).2
          = { exFace with encounter_count := exFace.encounter_count + 1 })) :=
  claim_C3_amended true false 50 aBusy exFace rfl

/-- C9: the per-identity cooldown.  First conjunct: while
`t - lastGreetedAt < 10` the per-face decision is a complete no-op (the
identity is not greeted, nothing changes), so after a greeting at time 0 no
greeting recurs strictly before `t = 10`.  Second conjunct: a live identity
whose cooldown has elapsed (in particular at any time strictly after 10),
with the global gate clear and audio free, IS greeted: its cooldown
timestamp becomes `t`, the global timestamp becomes `t` and its ledger key
is bumped. -/
theorem claim_C9 (seq gca : Bool) (t : ℚ) (a : Sched) (f : TrackedFace) :
    (t - f.last_greeting_time < greeting_cooldown → stepFace seq gca t a f = (a, f)) ∧
    (f.frames_missing = 0 → greeting_cooldown ≤ t - f.last_greeting_time →
      gca = false → a.busy = false →
      (stepFace seq gca t a f).2.last_greeting_time = t ∧
      (stepFace seq gca t a f).1.last_global_greeting_time = t ∧
      (stepFace seq gca t a f).1.face_greeting_counts = bump a.face_greeting_counts f.id) := by
  constructor
  · intro hcool
    unfold stepFace
    split_ifs with h1 <;> rfl
  · intro hfm hcool hgca hb
    subst hgca
    unfold stepFace
    rw [if_neg (by omega : ¬ f.frames_missing > 0)]
    rw [if_neg (not_lt.mpr hcool)]
    rw [if_neg (by simp : ¬ (false : Bool) = true)]
    by_cases hseq : seq = true
    · rw [if_pos hseq]
      simp [speak, hb]
    · rw [if_neg hseq]
      simp [speak, hb]

/-- Witness for C9: the no-op half at t = 5 and the greeting half at
t = 20, both for the fresh face `exFace` (last greeted at 0). -/
theorem claim_C9_witness :
    (stepFace false false 5 aFree exFace = (aFree, exFace)) ∧
    ((stepFace false false 20 aFree exFace).2.last_greeting_time = 20 ∧
      (stepFace false false 20 aFree exFace).1.last_global_greeting_time = 20 ∧
      (stepFace false false 20 aFree exFace).1.face_greeting_counts
        = bump aFree.face_greeting_counts exFace.id) :=
  ⟨(claim_C9 false false 5 aFree exFace).1
      (by norm_num [exFace, mkFace, greeting_cooldown]),
   (claim_C9 false false 20 aFree exFace).2 rfl
      (by norm_num [exFace, mkFace, greeting_cooldown]) rfl rfl⟩

/-- C8: the ledger total always equals the sum of the per-key counts.  It
is recomputed at startup (`initApp` sets the daily count to the sum of the
loaded map), holds after a day rollover, is preserved by every frame (a
successful greeting bumps one key and recomputes the total from the bumped
map, src/main.py lines 434-437), and therefore holds in every persisted
record (`save_face_counts` writes exactly the in-memory pair). -/
theorem claim_C8 :
    (∀ loaded, ledgerInv (initApp loaded)) ∧
    (∀ s, ledgerInv (dayRollover s)) ∧
    (∀ (seq : Bool) (s : AppState) (dets : List Rect) (t : ℚ) (b : Bool),
      ledgerInv s → ledgerInv (process_frame seq s dets t b)) ∧
    (∀ s, ledgerInv s →
      (save_face_counts s).1 = sumCounts (save_face_counts s).2) := by
  refine ⟨fun loaded => rfl, fun s => rfl, ?_, fun s hs => hs⟩
  intro seq s dets t b hs
  rcases process_frame_sched_cases seq s dets t b with ⟨hc, _, hd⟩ | ⟨k, _, hc, hd⟩
  · unfold ledgerInv
    rw [hc, hd]
    exact hs
  · unfold ledgerInv
    rw [hd, hc]

/-- Witness for C8: invariant preservation through a concrete greeting
frame. -/
theorem claim_C8_witness :
    ledgerInv (process_frame false (initApp [(3, 2)]) [exDet] 50 false) :=
  claim_C8.2.2.1 false (initApp [(3, 2)]) [exDet] 50 false rfl

/-- C5 counterexample: state `sAB` tracks two identities (ids 1 and 2),
both eligible by every cooldown; the frame at time 100 starts with audio
free.  A greeting fires for id 1 at `t = 100` (its cooldown timestamp
becomes 100, the ledger gains `(1, 1)`, the global timestamp becomes 100),
and id 2 -- evaluated later in the SAME frame -- is not greeted.  But the
frame's global-cooldown flag, the only global-gate check the code performs
(computed once from the pre-frame timestamp at src/main.py line 542), is
`false`: the global gate blocks nothing in this frame; id 2 is stopped
solely by the audio-busy check inside `speak`.  This refutes the claim's
assertion that once a greeting fires, the global gate blocks every
remaining identity evaluated later in that same frame. -/
theorem claim_C5_counterexample :
    global_cooldown_active sAB 100 = false ∧
    (process_frame false sAB [⟨0, 0, 50, 50⟩, ⟨500, 0, 50, 50⟩] 100 false).face_greeting_counts
      = [(1, 1)] ∧
    (process_frame false sAB [⟨0, 0, 50, 50⟩, ⟨500, 0, 50, 50⟩] 100 false).last_global_greeting_time
      = 100 ∧
    (process_frame false sAB [⟨0, 0, 50, 50⟩, ⟨500, 0, 50, 50⟩] 100 false).tracker.faces.map
        (fun f => (f.id, f.last_greeting_time)) = [(1, 100), (2, 0)] := by
  refine ⟨?_, ?_, ?_, ?_⟩ <;>
    norm_num [process_frame, global_cooldown_active, global_greeting_cooldown, sAB, exFace,
      exFaceB, update_tracked_faces, processDetection, matchDetection, TrackedFace.distance_lt,
      TrackedFace.update_position, mkFace, same_face_threshold, max_missing_frames,
      greetFaces, stepFace, speak, greeting_cooldown, bump, sumCounts]

/-- C5 amended: (i) a frame whose global-cooldown flag is set fires no
greeting at all; (ii) any single frame fires at most one greeting (the
audio-busy latch, not the once-per-frame global-gate flag, stops the
remaining identities), and when one fires the global timestamp becomes the
frame time; (iii) hence after a greeting at time `t0`, no greeting fires in
any later frame whose time is within `global_greeting_cooldown = 3` seconds
of `t0`. -/
theorem claim_C5_amended :
    (∀ (seq : Bool) (s : AppState) (dets : List Rect) (t : ℚ) (b : Bool),
      global_cooldown_active s t = true →
      (process_frame seq s dets t b).face_greeting_counts = s.face_greeting_counts ∧
      (process_frame seq s dets t b).last_global_greeting_time = s.last_global_greeting_time) ∧
    (∀ (seq : Bool) (s : AppState) (dets : List Rect) (t : ℚ) (b : Bool),
      sumCounts (process_frame seq s dets t b).face_greeting_counts
          ≤ sumCounts s.face_greeting_counts + 1 ∧
      (sumCounts (process_frame seq s dets t b).face_greeting_counts
          ≠ sumCounts s.face_greeting_counts →
        (process_frame seq s dets t b).last_global_greeting_time = t)) ∧
    (∀ (seq : Bool) (s : AppState) (frames : List (List Rect × ℚ × Bool)) (t0 : ℚ),
      s.last_global_greeting_time = t0 →
      (∀ fr ∈ frames, fr.2.1 - t0 < global_greeting_cooldown) →
      (runFrames seq s frames).face_greeting_counts = s.face_greeting_counts ∧
      (runFrames seq s frames).last_global_greeting_time = t0) := by
  refine ⟨?_, ?_, ?_⟩
  · intro seq s dets t b hg
    obtain ⟨h1, h2, _⟩ := process_frame_gate seq s dets t b hg
    exact ⟨h1, h2⟩
  · intro seq s dets t b
    rcases process_frame_sched_cases seq s dets t b with ⟨hc, hl, _⟩ | ⟨k, hl, hc, _⟩
    · rw [hc]
      exact ⟨Nat.le_succ _, fun hne => absurd rfl hne⟩
    · rw [hc, hl, bump_sum]
      exact ⟨le_refl _, fun _ => rfl⟩
  · intro seq s0 frames t0
    induction frames generalizing s0 with
    | nil => intro h0 _; exact ⟨rfl, h0⟩
    | cons fr rest ih =>
      intro h0 hall
      have hg : global_cooldown_active s0 fr.2.1 = true :=
        gate_active_of_recent s0 t0 fr.2.1 h0 (hall fr (List.mem_cons_self _ _))
      obtain ⟨hc, hl, _⟩ := process_frame_gate seq s0 fr.1 fr.2.1 fr.2.2 hg
      have h0' : (process_frame seq s0 fr.1 fr.2.1 fr.2.2).last_global_greeting_time = t0 :=
        hl.trans h0
      have hrest : ∀ g ∈ rest, g.2.1 - t0 < global_greeting_cooldown :=
        fun g hg1 => hall g (List.mem_cons_of_mem _ hg1)
      obtain ⟨ihc, ihl⟩ := ih (process_frame seq s0 fr.1 fr.2.1 fr.2.2) h0' hrest
      exact ⟨ihc.trans hc, ihl⟩

/-- Witness for the amended C5: part (iii) at a concrete state whose last
greeting fired at time 7, with one follow-up frame at time 8 < 7 + 3. -/
theorem claim_C5_amended_witness :
    (runFrames false sGate [([exDet], 8, false)]).face_greeting_counts
      = sGate.face_greeting_counts ∧
    (runFrames false sGate [([exDet], 8, false)]).last_global_greeting_time = 7 :=
  claim_C5_amended.2.2 false sGate [([exDet], 8, false)] 7 rfl
    (by
      intro fr hfr
      simp only [List.mem_singleton] at hfr
      subst hfr
      norm_num [global_greeting_cooldown])

/-- C4 counterexample: within one process run, the first identity created
from an empty tracker receives id 1 (first conjunct; `preRollover` records
the resulting state: that identity, with `next_id` advanced to 2).  The
in-process day rollover then resets the id counter to 1 (third conjunct,
src/main.py line 642), so the next identity created after the rollover ALSO
receives id 1 (second conjunct): ids are reused while the process runs, and
assignment is not monotone across a day rollover. -/
theorem claim_C4_counterexample :
    (update_tracked_faces { faces := [], next_id := 1 } [exDet]).faces.map TrackedFace.id
      = [1] ∧
    (update_tracked_faces (dayRollover preRollover).tracker [exDet]).faces.map TrackedFace.id
      = [1] ∧
    (dayRollover preRollover).tracker.next_id = 1 := by decide

/-- C4 amended: between rollovers the claim holds: any tracker update
preserves well-formed id assignment (pairwise-distinct ids, all below the
monotonically non-decreasing `next_id` counter), so two identities alive at
the same time always have distinct ids and ids are never reused while no
day rollover intervenes.  The day rollover, however, resets the counter
(see the counterexample). -/
theorem claim_C4_amended (s : TrackerState) (dets : List Rect) (hok : idsOk s) :
    idsOk (update_tracked_faces s dets) ∧
    s.next_id ≤ (update_tracked_faces s dets).next_id :=
  update_tracked_faces_ids s dets hok

/-- Witness for the amended C4 at a concrete well-formed state. -/
theorem claim_C4_amended_witness :
    idsOk (update_tracked_faces { faces := [exFace], next_id := 2 } [exDet]) ∧
    2 ≤ (update_tracked_faces { faces := [exFace], next_id := 2 } [exDet]).next_id :=
  claim_C4_amended { faces := [exFace], next_id := 2 } [exDet] ⟨by decide, by decide⟩

end FaceRec
